import Mathlib

/-!
# Statuspal notifier (notify/statuspal/statuspal.go)

A shallow embedding of the Statuspal notifier: `New`, `Notify`,
`createStatuspalPayload` and `startsAt` are translated from
`notify/statuspal/statuspal.go`.  The helpers they call in the packages
`notify`, `types` and `template` are not part of the sources at hand; each of
them is modelled from the specification and marked as such.  Calls into the Go
standard library (`net/http`, `net/url`, `encoding/json`, `time`) are modelled
by the small fragments the notifier relies on.
-/

namespace Statuspal

/-! ## Go values -/

/-- A Go string produced by a template: a sequence of bytes. -/
abbrev ByteString := List UInt8

/-- Go error values the notifier can see.  `errorString` is an error made by
`errors.New` or `fmt.Errorf`, `canceled` is `context.Canceled`, and `urlError`
is a `*url.Error` with its fields `Op`, `URL` and `Err`. -/
inductive GoError where
  | errorString (s : String)
  | canceled
  | urlError (Op : String) (URL : String) (Err : GoError)
deriving DecidableEq, Repr

/-- The `%q` verb on the strings used here: the text between double quotes,
with double quotes and backslashes escaped.  (The escapes `strconv.Quote`
has for control and non-printable characters are not modelled; the only
string quoted in the theorems below is the redaction marker.) -/
def quote (s : String) : String :=
  "\"" ++ String.mk (s.data.flatMap fun c =>
    if c = '"' then ['\\', '"'] else if c = '\\' then ['\\', '\\'] else [c]) ++ "\""

/-- The method `Error()`: the text of an error.  For a `*url.Error` it is
`fmt.Sprintf("%s %q: %s", e.Op, e.URL, e.Err)`. -/
def GoError.Error : GoError → String
  | .errorString s => s
  | .canceled => "context canceled"
  | .urlError op url err => op ++ " " ++ quote url ++ ": " ++ err.Error

/-- The method `Unwrap()`: the error a `*url.Error` wraps. -/
def GoError.Unwrap : GoError → Option GoError
  | .urlError _ _ err => some err
  | _ => none

/-- The test `strings.Contains(s, sub)` used by the leak assertions. -/
def Contains (s sub : String) : Prop := sub.data <:+: s.data

instance (s sub : String) : Decidable (Contains s sub) := by
  unfold Contains; infer_instance

/-- A `time.Time`: an instant (seconds and nanoseconds since the Unix epoch)
shown in a zone that lies `offset` seconds east of UTC. -/
structure Time where
  sec : Int
  nsec : Nat
  offset : Int
deriving DecidableEq, Repr

/-- The method `t.UTC()`: the same instant, shown in UTC. -/
def Time.UTC (t : Time) : Time := { t with offset := 0 }

/-- Whether `t.Year()` lies in the range 0..9999 that `Time.MarshalJSON`
accepts: year 0 starts 62167219200 seconds before the epoch and year 10000
starts 253402300800 seconds after it. -/
def Time.yearInRange (t : Time) : Bool :=
  decide (-62167219200 ≤ t.sec + t.offset ∧ t.sec + t.offset < 253402300800)

/-- A `context.Context` as the notifier uses it: the group key stored in it
(if any) and whether its cancellation signal has fired by the time the
request is executed. -/
structure Context where
  groupKey : Option String
  canceled : Bool
deriving DecidableEq, Repr

/-- The part of the surroundings the notifier reads: the wall clock behind
`time.Now()`, whose readings have a year within 0..9999, and the outcome of
`url.Parse` inside `http.NewRequest` (`none` when the URL parses). -/
structure Env where
  now : Time
  now_valid : now.UTC.yearInRange = true
  urlParse : String → Option GoError

/-! ## Helpers of other packages -/

/-- Modelled from the spec: `types.Alert` is not in the sources.  "Each Alert
has at minimum a start timestamp, a resolved/firing status, and a set of
label/annotation key-value pairs used for template rendering." -/
structure Alert where
  StartsAt : Time
  Resolved : Bool
  Labels : List (String × String)
  Annotations : List (String × String)
deriving DecidableEq, Repr

/-- The two values of `model.AlertStatus`. -/
inductive AlertStatus where
  | AlertFiring
  | AlertResolved
deriving DecidableEq, Repr

/-- Modelled from the spec: `types.Alerts` is not in the sources; it exposes
the batch in the same order. -/
def Alerts (as : List Alert) : List Alert := as

/-- Modelled from the spec: the method `Status` of the alert batch is not in
the sources.  "AggregateStatus: derived value, one of {Firing, Resolved},
computed by reducing AlertBatch: Resolved if all constituent alerts are
resolved, else Firing." -/
def Status (alerts : List Alert) : AlertStatus :=
  if alerts.all (fun a => a.Resolved) then AlertStatus.AlertResolved
  else AlertStatus.AlertFiring

/-- Modelled from the spec: `notify.ExtractGroupKey` is not in the sources.
The grouping context "supplies ... a stable group key"; without one the
lookup is an error. -/
def ExtractGroupKey (ctx : Context) : Except GoError String :=
  match ctx.groupKey with
  | some key => .ok key
  | none => .error (.errorString "group key missing")

/-- Modelled from the spec: the template data of the package `template` is
not in the sources.  "RenderContext: immutable template-rendering input built
once per Notify call from AlertBatch"; of the call context it holds the values
stored there (the group key), not the cancellation signal. -/
structure Data where
  GroupKey : Option String
  Alerts : List Alert
deriving DecidableEq, Repr

/-- Modelled from the spec: `template.Template` is not in the sources.
"Templating engine: given a template string and a rendering context derived
from the alert batch, returns the rendered string or an error". -/
structure Template where
  ExecuteTextString : String → Data → Except GoError ByteString

/-- Modelled from the spec: `notify.GetTemplateData` is not in the sources; it
builds the rendering context from the values of the call context and the
batch. -/
def GetTemplateData (ctx : Context) (_tmpl : Template) (as : List Alert) : Data :=
  { GroupKey := ctx.groupKey, Alerts := as }

/-- Modelled from the spec: `notify.TmplText` is not in the sources.  It turns
the engine into a rendering function `string -> string` that reports a failure
through the error variable it was given (passed here as `err`, returned as the
second component): a failed rendering yields the empty string and sets the
variable, and once the variable is set nothing more is rendered (fail fast). -/
def TmplText (tmpl : Template) (data : Data) (err : Option GoError) (name : String) :
    ByteString × Option GoError :=
  match err with
  | some e => ([], some e)
  | none =>
    match tmpl.ExecuteTextString name data with
    | .ok s => (s, none)
    | .error e => ([], some e)

/-- Modelled from the spec: `notify.Truncate` is not in the sources.  "Title
and description strings longer than 20480 bytes are truncated to exactly that
ceiling in the emitted payload; strings at or under the ceiling are passed
through unchanged".  The second component reports whether the string was
cut. -/
def Truncate (s : ByteString) (n : Nat) : ByteString × Bool :=
  if s.length ≤ n then (s, false) else (s.take n, true)

/-- The redaction marker. -/
def redacted : String := "<redacted>"

/-- Modelled from the spec: `notify.RedactURL` is not in the sources.  "The
URL carried by the transport error is replaced by a redaction marker"; an
error that carries no URL is returned as it is. -/
def RedactURL (err : GoError) : GoError :=
  match err with
  | .urlError op _ e => .urlError op redacted e
  | e => e

/-- Modelled from the spec: `notify.Retrier` is not in the sources.  It holds
the extra status codes to retry; the notifier configures none. -/
structure Retrier where
  RetryCodes : List Int
deriving DecidableEq, Repr

/-- Modelled from the spec: `Retrier.Check` is not in the sources.  "2xx →
(false, nil) — success.  5xx → (true, errorDescribingStatus).  All other codes
→ (false, errorDescribingStatus)", an extra retry code being retried as well.
The class of a code is its quotient by 100 (Go integer division, which
truncates).  The body argument is nil at the only call and is left out. -/
def Retrier.Check (r : Retrier) (statusCode : Int) : Bool × Option GoError :=
  if statusCode.tdiv 100 = 2 then (false, none)
  else
    (decide (statusCode.tdiv 100 = 5) || r.RetryCodes.contains statusCode,
      some (.errorString ("unexpected status code " ++ toString statusCode)))

/-! ## Configuration, requests and the HTTP client -/

/-- A base URL as a `url.URL`: scheme, host and path (a URL without opaque
part, user information, raw path, query or fragment). -/
structure URL where
  Scheme : String
  Host : String
  Path : String
deriving DecidableEq, Repr

/-- The method `Copy` of `config.URL`. -/
def URL.Copy (u : URL) : URL := u

/-- The escaping modes of `net/url` that `String()` uses on host and path. -/
inductive encoding where
  | encodePath
  | encodeHost
deriving DecidableEq, Repr

/-- The function `shouldEscape` of `net/url` on an ASCII character, for the
two modes above. -/
def shouldEscape (c : Char) (mode : encoding) : Bool :=
  if c.isAlphanum then false
  else if mode = encoding.encodeHost ∧
      c ∈ ['!', '$', '&', Char.ofNat 39, '(', ')', '*', '+', ',', ';', '=', ':', '[', ']',
        '<', '>', '"'] then false
  else if c ∈ ['-', '_', '.', '~'] then false
  else if c ∈ ['$', '&', '+', ',', '/', ':', ';', '=', '?', '@'] then
    match mode with
    | encoding.encodePath => decide (c = '?')
    | encoding.encodeHost => true
  else true

/-- The digit of `upperhex` for a value below 16. -/
def upperhex (n : Nat) : Char := "0123456789ABCDEF".data.getD n '0'

/-- The three characters `%XX` that stand for an escaped byte. -/
def percent (b : UInt8) : List Char := ['%', upperhex (b.toNat / 16), upperhex (b.toNat % 16)]

/-- What `escape` writes for one character of the string: the character
itself when it is ASCII and need not be escaped, and otherwise `%XX` for each
byte of its UTF-8 encoding. -/
def escapeChar (mode : encoding) (c : Char) : List Char :=
  if c.toNat < 128 ∧ shouldEscape c mode = false then [c]
  else (String.utf8EncodeChar c).flatMap percent

/-- The function `escape` of `net/url`. -/
def escape (s : String) (mode : encoding) : String :=
  String.mk (s.data.flatMap (escapeChar mode))

/-- The method `EscapedPath()` of a URL without raw path. -/
def URL.EscapedPath (u : URL) : String :=
  if u.Path = "*" then "*" else escape u.Path encoding.encodePath

/-- Whether the first segment of a path has a colon in it. -/
def colonInFirstSegment (path : String) : Bool :=
  (path.data.takeWhile fun c => c ≠ '/').contains ':'

/-- The method `String()` of a URL with scheme, host and path: the scheme
with a colon, two slashes before the host, the escaped host, a slash before a
path that lacks one when there is a host, `./` before a path that would read
as a scheme when nothing precedes it, and the escaped path. -/
def URL.String (u : URL) : String :=
  let buf := if u.Scheme ≠ "" then u.Scheme ++ ":" else ""
  let buf :=
    if u.Scheme ≠ "" ∨ u.Host ≠ "" then
      (if u.Host ≠ "" ∨ u.Path ≠ "" then buf ++ "//" else buf) ++
        escape u.Host encoding.encodeHost
    else buf
  let path := u.EscapedPath
  let buf :=
    if path ≠ "" ∧ path.data.head? ≠ some '/' ∧ u.Host ≠ "" then buf ++ "/" else buf
  let buf := if buf = "" ∧ colonInFirstSegment path = true then buf ++ "./" else buf
  buf ++ path

/-- Modelled from the spec: `config.StatuspalConfig` is not in the sources.
"API base URL, API key template, target resource identifiers, notification
toggles (email/slack/tweet)" and the three templated strings. -/
structure StatuspalConfig where
  APIURL : URL
  APIKey : String
  StatuspageDomain : String
  ServiceIds : List Int
  IncidentType : String
  TitleMessage : String
  IncidentMessage : String
  NotifyEmail : Bool
  NotifySlack : Bool
  NotifyTweet : Bool
deriving DecidableEq, Repr

/-- One element of `incident_activities` in the message. -/
structure IncidentActivity where
  activity_type_id : Int
  description : ByteString
  email_notify : Bool
  slack_notify : Bool
  tweet : Bool
deriving DecidableEq, Repr

/-- The map `msg` that `createStatuspalPayload` encodes. -/
structure Msg where
  title : ByteString
  service_ids : List Int
  type : ByteString
  starts_at : Time
  incident_activities : List IncidentActivity
deriving DecidableEq, Repr

/-- Whether a byte is a UTF-8 continuation byte within the given bounds. -/
def inRange (lo hi b : UInt8) : Bool := decide (lo ≤ b ∧ b ≤ hi)

/-- The size and the bounds of the second byte that `unicode/utf8` accepts
after the first byte `b0` of a multi-byte character; `none` for a byte that
cannot start one. -/
def acceptRange (b0 : UInt8) : Option (Nat × UInt8 × UInt8) :=
  if inRange 0xC2 0xDF b0 then some (2, 0x80, 0xBF)
  else if b0 = 0xE0 then some (3, 0xA0, 0xBF)
  else if inRange 0xE1 0xEC b0 then some (3, 0x80, 0xBF)
  else if b0 = 0xED then some (3, 0x80, 0x9F)
  else if inRange 0xEE 0xEF b0 then some (3, 0x80, 0xBF)
  else if b0 = 0xF0 then some (4, 0x90, 0xBF)
  else if inRange 0xF1 0xF3 b0 then some (4, 0x80, 0xBF)
  else if b0 = 0xF4 then some (4, 0x80, 0x8F)
  else none

/-- The size that `utf8.DecodeRuneInString` reports for the character at the
head of the bytes, with 0 standing for its answer `(RuneError, 1)` on a byte
that does not start a well-formed character. -/
def runeSize : ByteString → Nat
  | [] => 0
  | b0 :: rest =>
    if b0 < 0x80 then 1
    else
      match acceptRange b0 with
      | none => 0
      | some (size, lo, hi) =>
        match rest with
        | [] => 0
        | b1 :: rest1 =>
          if inRange lo hi b1 = false then 0
          else if size = 2 then 2
          else if (rest1.take (size - 2)).length = size - 2 ∧
              (rest1.take (size - 2)).all (inRange 0x80 0xBF) = true then size
          else 0

/-- The string value the JSON encoder writes for a Go string: the bytes of
each well-formed character as they are, and U+FFFD (the bytes EF BF BD) in
place of every byte that does not start one.  `pending` counts the bytes
that remain of the character being copied. -/
def replaceInvalid : Nat → ByteString → ByteString
  | _, [] => []
  | pending + 1, b :: rest => b :: replaceInvalid pending rest
  | 0, b :: rest =>
    if runeSize (b :: rest) = 0 then 0xEF :: 0xBF :: 0xBD :: replaceInvalid 0 rest
    else b :: replaceInvalid (runeSize (b :: rest) - 1) rest

/-- Whether the bytes are well-formed UTF-8 (`utf8.Valid`), `pending` as
above. -/
def validUTF8 : Nat → ByteString → Bool
  | _, [] => true
  | pending + 1, _ :: rest => validUTF8 pending rest
  | 0, b :: rest =>
    if runeSize (b :: rest) = 0 then false
    else validUTF8 (runeSize (b :: rest) - 1) rest

/-- The message as it stands in the encoded JSON: every string with its
invalid bytes replaced. -/
def Msg.encoded (msg : Msg) : Msg :=
  { title := replaceInvalid 0 msg.title
    service_ids := msg.service_ids
    type := replaceInvalid 0 msg.type
    starts_at := msg.starts_at
    incident_activities := msg.incident_activities.map fun act =>
      { act with description := replaceInvalid 0 act.description } }

/-- The call `json.NewEncoder(&buf).Encode(msg)`.  Booleans and integers
always encode, strings encode with their invalid UTF-8 replaced, and a time
encodes unless its year is outside 0..9999.  The filled buffer is
represented by the message that its JSON text holds. -/
def Encode (msg : Msg) : Except GoError Msg :=
  if msg.starts_at.yearInRange then .ok msg.encoded
  else .error (.errorString
    "json: error calling MarshalJSON for type time.Time: year outside of range [0,9999]")

/-- An `http.Request`: method, URL, header fields and body. -/
structure Request where
  Method : String
  URL : String
  Header : List (String × ByteString)
  Body : Msg
deriving DecidableEq, Repr

/-- An `http.Response`, of which only the status code is read. -/
structure Response where
  StatusCode : Int
deriving DecidableEq, Repr

/-- The call `http.NewRequest(method, url, body)` for a valid method: it fails
with a `*url.Error` of operation `parse` when the URL does not parse. -/
def NewRequest (env : Env) (method url : String) (body : Msg) : Except GoError Request :=
  match env.urlParse url with
  | some e => .error (.urlError "parse" url e)
  | none => .ok { Method := method, URL := url, Header := [], Body := body }

/-- The method `Header.Set`: replace the value of a header field. -/
def Request.setHeader (req : Request) (key : String) (value : ByteString) : Request :=
  { req with Header := (req.Header.filter fun kv => kv.1 ≠ key) ++ [(key, value)] }

/-- An `http.Client`: `RoundTrip` is the exchange with the remote end
(redirects included), which yields a response or fails. -/
structure Client where
  RoundTrip : Request → Except GoError Response

/-- The operation name `net/http` puts into its errors: the method with only
its first letter in upper case (`Post` for `POST`). -/
def urlErrorOp (method : String) : String :=
  match method.data with
  | [] => "Get"
  | c :: cs => String.mk (c :: cs.map Char.toLower)

/-- The call `client.Do(req.WithContext(ctx))`.  Every error it returns is a
`*url.Error` that carries the request URL; when the context is cancelled the
wrapped error is `context.Canceled`. -/
def Client.Do (c : Client) (ctx : Context) (req : Request) : Except GoError Response :=
  if ctx.canceled then .error (.urlError (urlErrorOp req.Method) req.URL .canceled)
  else
    match c.RoundTrip req with
    | .ok resp => .ok resp
    | .error e => .error (.urlError (urlErrorOp req.Method) req.URL e)

/-! ## The notifier (statuspal.go) -/

/-- Notifier implements a Notifier for Statuspal notifications (the logger,
which has no effect on results, is left out). -/
structure Notifier where
  conf : StatuspalConfig
  tmpl : Template
  client : Client
  retrier : Retrier

/-- New returns a new Statuspal notifier.  `newClient` is the outcome of
`commoncfg.NewClientFromConfig(*c.HTTPConfig, "statuspal", false)`. -/
def New (c : StatuspalConfig) (t : Template) (newClient : Except GoError Client) :
    Except GoError Notifier :=
  match newClient with
  | .error err => .error err
  | .ok client =>
    .ok { conf := c, tmpl := t, client := client, retrier := { RetryCodes := [] } }

def statuspalActivityTypeTrigger : Int := 1

def statuspalActivityTypeResolve : Int := 4

/-- The method `startsAt`. -/
def startsAt (env : Env) (as : List Alert) : Time :=
  if h : as.length > 0 then as[0].StartsAt
  else env.now

/-- The three renderings of `createStatuspalPayload` (lines 93-97), in source
order, with the final state of the error variable they share. -/
def renderFields (n : Notifier) (ctx : Context) (as : List Alert) :
    ByteString × ByteString × ByteString × Option GoError :=
  let data := GetTemplateData ctx n.tmpl as
  let err : Option GoError := none
  let (incidentType, err) := TmplText n.tmpl data err n.conf.IncidentType
  let (titleMessage, err) := TmplText n.tmpl data err n.conf.TitleMessage
  let (incidentMessage, err) := TmplText n.tmpl data err n.conf.IncidentMessage
  (incidentType, titleMessage, incidentMessage, err)

/-- The activity type chosen by `createStatuspalPayload` (lines 100-107). -/
def activityTypeOf (alerts : List Alert) : Int :=
  let activityType := statuspalActivityTypeTrigger
  let activityType :=
    if Status alerts = AlertStatus.AlertFiring then statuspalActivityTypeTrigger
    else activityType
  let activityType :=
    if Status alerts = AlertStatus.AlertResolved then statuspalActivityTypeResolve
    else activityType
  activityType

/-- The method `createStatuspalPayload`.  The error variable written by the
rendering function is not read again after the renderings: the `err` tested
after `Encode` is a new variable of the `if` statement, and the function ends
with `return &buf, nil`. -/
def createStatuspalPayload (env : Env) (n : Notifier) (ctx : Context) (as : List Alert) :
    Except GoError Msg :=
  match ExtractGroupKey ctx with
  | .error err => .error err
  | .ok _key =>
    let alerts := Alerts as
    let (incidentType, titleMessage, incidentMessage, _err) := renderFields n ctx as
    let activityType := activityTypeOf alerts
    let (titleMessage, _truncated) := Truncate titleMessage 20480
    let (incidentMessage, _truncated) := Truncate incidentMessage 20480
    let msg : Msg :=
      { title := titleMessage
        service_ids := n.conf.ServiceIds
        type := incidentType
        starts_at := (startsAt env as).UTC
        incident_activities :=
          [{ activity_type_id := activityType
             description := incidentMessage
             email_notify := n.conf.NotifyEmail
             slack_notify := n.conf.NotifySlack
             tweet := n.conf.NotifyTweet }] }
    match Encode msg with
    | .error err => .error err
    | .ok buf => .ok buf

/-- Notify implements the Notifier interface.  The error variable that the
rendering of the API key writes is the one that `buf, err :=` assigns next,
so what the rendering stored in it is overwritten before it is read. -/
def Notify (env : Env) (n : Notifier) (ctx : Context) (as : List Alert) :
    Bool × Option GoError :=
  let err : Option GoError := none
  let data := GetTemplateData ctx n.tmpl as
  let apiURL := n.conf.APIURL.Copy
  let (apiKey, _err) := TmplText n.tmpl data err n.conf.APIKey
  let apiURL : URL :=
    { apiURL with Path := apiURL.Path ++ ("status_page/" ++ n.conf.StatuspageDomain ++ "/incidents") }
  match createStatuspalPayload env n ctx as with
  | .error err => (true, some err)
  | .ok buf =>
    match NewRequest env "POST" apiURL.String buf with
    | .error err => (true, some (RedactURL err))
    | .ok req =>
      let req := req.setHeader "Content-Type" "application/json".toUTF8.toList
      let req := req.setHeader "Authorization" apiKey
      match n.client.Do ctx req with
      | .error err => (true, some (RedactURL err))
      | .ok resp => n.retrier.Check resp.StatusCode

/-! ## The message and the request, written with projections -/

/-- The message that `createStatuspalPayload` hands to the encoder, written
with projections. -/
def statuspalMsg (env : Env) (n : Notifier) (ctx : Context) (as : List Alert) : Msg :=
  { title := (Truncate (renderFields n ctx as).2.1 20480).1
    service_ids := n.conf.ServiceIds
    type := (renderFields n ctx as).1
    starts_at := (startsAt env as).UTC
    incident_activities :=
      [{ activity_type_id := activityTypeOf (Alerts as)
         description := (Truncate (renderFields n ctx as).2.2.1 20480).1
         email_notify := n.conf.NotifyEmail
         slack_notify := n.conf.NotifySlack
         tweet := n.conf.NotifyTweet }] }

/-- The URL of the request: the configured URL with the incidents path of the
status page appended. -/
def requestURL (n : Notifier) : String :=
  URL.String { n.conf.APIURL.Copy with
    Path := n.conf.APIURL.Copy.Path ++ ("status_page/" ++ n.conf.StatuspageDomain ++ "/incidents") }

/-- The rendering of the API key in `Notify`, with the error it stores. -/
def renderedAPIKey (n : Notifier) (ctx : Context) (as : List Alert) :
    ByteString × Option GoError :=
  TmplText n.tmpl (GetTemplateData ctx n.tmpl as) none n.conf.APIKey

/-- The request that `Notify` hands to the client, for the payload `buf`. -/
def statuspalRequest (n : Notifier) (ctx : Context) (as : List Alert) (buf : Msg) : Request :=
  Request.setHeader
    (Request.setHeader { Method := "POST", URL := requestURL n, Header := [], Body := buf }
      "Content-Type" "application/json".toUTF8.toList)
    "Authorization" (renderedAPIKey n ctx as).1

/-! ## Sample values -/

/-- A wall clock reading 2020-09-13T12:26:40Z and a URL parser that accepts
every URL. -/
def sampleEnv : Env :=
  { now := { sec := 1600000000, nsec := 0, offset := 0 }
    now_valid := by decide
    urlParse := fun _ => none }

/-- A context that carries the group key `1` and is not cancelled. -/
def sampleCtx : Context := { groupKey := some "1", canceled := false }

/-- The sample context with its cancellation signal fired. -/
def canceledCtx : Context := { groupKey := some "1", canceled := true }

/-- A template engine for plain ASCII texts: a text without actions renders
to its own bytes, and the unclosed action `{{` is an error. -/
def sampleTemplate : Template :=
  { ExecuteTextString := fun name _ =>
      if name = "\x7b\x7b" then .error (.errorString "template: unclosed action")
      else .ok (name.data.map fun c => c.toNat.toUInt8) }

/-- A configuration whose templated strings all render. -/
def sampleConf : StatuspalConfig :=
  { APIURL := { Scheme := "https", Host := "x.example", Path := "/" }
    APIKey := "secret"
    StatuspageDomain := "acme"
    ServiceIds := [7]
    IncidentType := "major"
    TitleMessage := "down"
    IncidentMessage := "db"
    NotifyEmail := true
    NotifySlack := false
    NotifyTweet := false }

/-- A client whose remote end answers every request with the given status. -/
def answering (code : Int) : Client := { RoundTrip := fun _ => .ok { StatusCode := code } }

/-- The notifier that `New` builds from the sample configuration. -/
def sampleNotifier (code : Int) : Notifier :=
  { conf := sampleConf, tmpl := sampleTemplate, client := answering code,
    retrier := { RetryCodes := [] } }

/-- An alert that started at second 1500000000, shown two hours east of
UTC. -/
def sampleAlert (resolved : Bool) : Alert :=
  { StartsAt := { sec := 1500000000, nsec := 5, offset := 7200 }, Resolved := resolved,
    Labels := [("alertname", "Down")], Annotations := [] }

/-- The sample notifier with an incident message template that does not
render. -/
def brokenMessageNotifier : Notifier :=
  { conf := { sampleConf with IncidentMessage := "\x7b\x7b" }, tmpl := sampleTemplate,
    client := answering 200, retrier := { RetryCodes := [] } }

/-- The sample notifier with an API key template that does not render. -/
def brokenKeyNotifier : Notifier :=
  { conf := { sampleConf with APIKey := "\x7b\x7b" }, tmpl := sampleTemplate,
    client := answering 200, retrier := { RetryCodes := [] } }

/-- A client whose transport fails and names, in its error, the URL and the
Authorization value of the request it could not send. -/
def reportingClient : Client :=
  { RoundTrip := fun req => .error (.errorString
      ("round trip to " ++ req.URL ++ " with authorization " ++
        String.mk (((req.Header.lookup "Authorization").getD []).map
          fun b => Char.ofNat b.toNat) ++ " failed")) }

/-- The sample notifier (API key `secret`) on the reporting client. -/
def reportingNotifier : Notifier :=
  { conf := sampleConf, tmpl := sampleTemplate, client := reportingClient,
    retrier := { RetryCodes := [] } }

/-- The UTF-8 bytes of `n` letters e with acute accent (two bytes each). -/
def accented : Nat → ByteString
  | 0 => []
  | n + 1 => 195 :: 169 :: accented n

/-- A template engine whose renderings are the letter A followed by 20479
letters e with acute accent: 20480 characters, 40959 bytes of valid UTF-8. -/
def splitTemplate : Template :=
  { ExecuteTextString := fun _ _ => .ok (65 :: accented 20479) }

/-- The sample notifier with the engine above. -/
def splitNotifier : Notifier :=
  { conf := sampleConf, tmpl := splitTemplate, client := answering 200,
    retrier := { RetryCodes := [] } }

/-- A template engine that renders every template to 20481 bytes. -/
def longTemplate : Template :=
  { ExecuteTextString := fun _ _ => .ok (List.replicate 20481 65) }

/-- The sample notifier with the engine of long renderings. -/
def longNotifier : Notifier :=
  { conf := sampleConf, tmpl := longTemplate, client := answering 200,
    retrier := { RetryCodes := [] } }

/-! ## Lemmas -/

/-- Go integer division by 100 yields the class `k > 0` exactly on the hundred
codes that start at `100 * k`. -/
theorem tdiv_hundred_eq (c k : Int) (hk : 0 < k) :
    c.tdiv 100 = k ↔ 100 * k ≤ c ∧ c < 100 * k + 100 := by
  rcases le_or_lt 0 c with h | h
  · rw [Int.tdiv_eq_ediv h (by norm_num)]; omega
  · have h1 : c.tdiv 100 = -((-c) / 100) := by
      have h2 := Int.neg_tdiv (-c) 100
      rw [neg_neg] at h2
      rw [h2, Int.tdiv_eq_ediv (by omega) (by norm_num)]
    rw [h1]; omega

/-- The notifier that `New` returns has no extra retry codes. -/
theorem New_retrier (c : StatuspalConfig) (t : Template) (newClient : Except GoError Client)
    (n : Notifier) (h : New c t newClient = .ok n) : n.retrier = { RetryCodes := [] } := by
  unfold New at h
  cases newClient with
  | error e => simp at h
  | ok client =>
    simp only [Except.ok.injEq] at h
    rw [← h]

/-- Without extra retry codes the verdict of `Check` is decided by the class
of the status code alone. -/
theorem Check_no_extra_codes (code : Int) :
    Retrier.Check { RetryCodes := [] } code =
      if 200 ≤ code ∧ code ≤ 299 then (false, none)
      else (decide (500 ≤ code ∧ code ≤ 599),
        some (.errorString ("unexpected status code " ++ toString code))) := by
  have h2 := tdiv_hundred_eq code 2 (by norm_num)
  have h5 := tdiv_hundred_eq code 5 (by norm_num)
  unfold Retrier.Check
  by_cases c2 : code.tdiv 100 = 2
  · have : 200 ≤ code ∧ code ≤ 299 := by have := h2.mp c2; omega
    simp [c2, this]
  · have n2 : ¬ (200 ≤ code ∧ code ≤ 299) := fun hh => c2 (h2.mpr (by omega))
    by_cases c5 : code.tdiv 100 = 5
    · have : 500 ≤ code ∧ code ≤ 599 := by have := h5.mp c5; omega
      simp [c2, c5, n2, this]
    · have n5 : ¬ (500 ≤ code ∧ code ≤ 599) := fun hh => c5 (h5.mpr (by omega))
      simp [c2, c5, n2, n5]

/-- The payload builder fails without a group key and otherwise returns what
the encoder makes of the message. -/
theorem createStatuspalPayload_eq (env : Env) (n : Notifier) (ctx : Context)
    (as : List Alert) :
    createStatuspalPayload env n ctx as =
      match ExtractGroupKey ctx with
      | .error err => .error err
      | .ok _ => Encode (statuspalMsg env n ctx as) := by
  unfold createStatuspalPayload
  cases ExtractGroupKey ctx with
  | error e => rfl
  | ok key =>
    simp only [statuspalMsg]
    cases Encode _ <;> rfl

/-- A payload that is returned is the message as encoded, and a payload is
returned when there is a group key and the start time has a year the encoder
accepts. -/
theorem createStatuspalPayload_ok_iff (env : Env) (n : Notifier) (ctx : Context)
    (as : List Alert) (msg : Msg) :
    createStatuspalPayload env n ctx as = .ok msg ↔
      ctx.groupKey ≠ none ∧ (startsAt env as).UTC.yearInRange = true ∧
        msg = (statuspalMsg env n ctx as).encoded := by
  rw [createStatuspalPayload_eq]
  unfold ExtractGroupKey Encode
  cases hk : ctx.groupKey with
  | none => simp
  | some key =>
    have hs : (statuspalMsg env n ctx as).starts_at = (startsAt env as).UTC := rfl
    by_cases hy : (startsAt env as).UTC.yearInRange = true
    · simp [hs, hy, eq_comm]
    · simp [hs, hy]

/-- The activity type is the resolve constant on a batch whose alerts are all
resolved and the trigger constant on every other batch. -/
theorem activityTypeOf_eq (alerts : List Alert) :
    activityTypeOf alerts = if (∀ a ∈ alerts, a.Resolved = true) then 4 else 1 := by
  unfold activityTypeOf Status statuspalActivityTypeTrigger statuspalActivityTypeResolve
  by_cases h : alerts.all (fun a => a.Resolved) = true
  · have h2 : ∀ a ∈ alerts, a.Resolved = true := by simpa [List.all_eq_true] using h
    rw [if_pos h2]
    simp [h]
  · have h2 : ¬ ∀ a ∈ alerts, a.Resolved = true := by
      intro hh; exact h (by simpa [List.all_eq_true] using hh)
    rw [if_neg h2]
    simp [h]

/-- The control flow of `Notify`, written with the request it sends. -/
theorem Notify_eq (env : Env) (n : Notifier) (ctx : Context) (as : List Alert) :
    Notify env n ctx as =
      match createStatuspalPayload env n ctx as with
      | .error err => (true, some err)
      | .ok buf =>
        match env.urlParse (requestURL n) with
        | some e => (true, some (.urlError "parse" redacted e))
        | none =>
          match n.client.Do ctx (statuspalRequest n ctx as buf) with
          | .error err => (true, some (RedactURL err))
          | .ok resp => n.retrier.Check resp.StatusCode := by
  unfold Notify
  cases createStatuspalPayload env n ctx as with
  | error e => rfl
  | ok buf =>
    simp only [NewRequest]
    have hu : URL.String { n.conf.APIURL.Copy with
        Path := n.conf.APIURL.Copy.Path ++
          ("status_page/" ++ n.conf.StatuspageDomain ++ "/incidents") } = requestURL n := rfl
    rw [hu]
    cases env.urlParse (requestURL n) with
    | some e => rfl
    | none => rfl

/-- Every error of `Client.Do` is a URL error that carries the URL of the
request and the operation of its method. -/
theorem Client_Do_error (c : Client) (ctx : Context) (req : Request) (e : GoError)
    (h : c.Do ctx req = .error e) :
    ∃ inner, e = .urlError (urlErrorOp req.Method) req.URL inner ∧
      (ctx.canceled = true → inner = .canceled) ∧
      (ctx.canceled = false → c.RoundTrip req = .error inner) := by
  unfold Client.Do at h
  by_cases hc : ctx.canceled = true
  · simp only [hc, if_true, Except.error.injEq] at h
    exact ⟨.canceled, h.symm, fun _ => rfl, fun h2 => by simp [hc] at h2⟩
  · rw [if_neg hc] at h
    cases hr : c.RoundTrip req with
    | ok resp => simp [hr] at h
    | error inner =>
      simp only [hr, Except.error.injEq] at h
      exact ⟨inner, h.symm, fun h2 => absurd h2 hc, fun _ => rfl⟩

/-- Once the client returns a response, `Notify` returns what the classifier
makes of its status code. -/
theorem Notify_response (env : Env) (n : Notifier) (ctx : Context) (as : List Alert)
    (buf : Msg) (resp : Response) (hp : createStatuspalPayload env n ctx as = .ok buf)
    (hu : env.urlParse (requestURL n) = none)
    (hd : n.client.Do ctx (statuspalRequest n ctx as buf) = .ok resp) :
    Notify env n ctx as = n.retrier.Check resp.StatusCode := by
  rw [Notify_eq]
  simp only [hp, hu, hd]

/-- The request of `Notify` is a POST to the request URL. -/
theorem statuspalRequest_method_url (n : Notifier) (ctx : Context) (as : List Alert)
    (buf : Msg) :
    (statuspalRequest n ctx as buf).Method = "POST" ∧
    (statuspalRequest n ctx as buf).URL = requestURL n := ⟨rfl, rfl⟩

/-- The operation name of a POST. -/
theorem urlErrorOp_POST : urlErrorOp "POST" = "Post" := by decide

/-- The truncation never yields more than `n` bytes, keeps a string of at
most `n` bytes, and cuts a longer one down to its first `n` bytes. -/
theorem Truncate_spec (s : ByteString) (n : Nat) :
    (Truncate s n).1.length ≤ n ∧
    (s.length ≤ n → Truncate s n = (s, false)) ∧
    (n < s.length → Truncate s n = (s.take n, true) ∧ (Truncate s n).1.length = n) := by
  unfold Truncate
  by_cases h : s.length ≤ n
  · rw [if_pos h]
    exact ⟨h, fun _ => rfl, fun h2 => absurd h (by omega)⟩
  · rw [if_neg h]
    have hl : (s.take n).length = n := by rw [List.length_take]; omega
    exact ⟨le_of_eq hl, fun h2 => absurd h2 h, fun _ => ⟨rfl, hl⟩⟩

/-- The start time of a non-empty batch is that of its first alert. -/
theorem startsAt_cons (env : Env) (a : Alert) (rest : List Alert) :
    startsAt env (a :: rest) = a.StartsAt := by
  simp [startsAt]

/-- The start time of the empty batch is the wall-clock time. -/
theorem startsAt_nil (env : Env) : startsAt env [] = env.now := by
  simp [startsAt]

/-- A payload is built from the empty batch when the context has a group
key. -/
theorem createStatuspalPayload_empty_ok (env : Env) (n : Notifier) (ctx : Context)
    (hk : ctx.groupKey ≠ none) :
    createStatuspalPayload env n ctx [] = .ok (statuspalMsg env n ctx []).encoded := by
  refine (createStatuspalPayload_ok_iff env n ctx [] _).mpr ⟨hk, ?_, rfl⟩
  rw [startsAt_nil]
  exact env.now_valid

/-- The encoder writes at most three bytes for each byte of a string. -/
theorem replaceInvalid_length_le (s : ByteString) :
    ∀ k : Nat, (replaceInvalid k s).length ≤ 3 * s.length := by
  induction s with
  | nil => intro k; cases k <;> simp [replaceInvalid]
  | cons b rest ih =>
    intro k
    cases k with
    | zero =>
      unfold replaceInvalid
      split_ifs
      · have h0 := ih 0
        simp only [List.length_cons]
        omega
      · have h1 := ih (runeSize (b :: rest) - 1)
        simp only [List.length_cons]
        omega
    | succ k =>
      have hk := ih k
      simp only [replaceInvalid, List.length_cons]
      omega

/-- The encoder writes well-formed UTF-8 as it is. -/
theorem replaceInvalid_of_valid (s : ByteString) :
    ∀ k : Nat, validUTF8 k s = true → replaceInvalid k s = s := by
  induction s with
  | nil => intro k _; cases k <;> rfl
  | cons b rest ih =>
    intro k hv
    cases k with
    | zero =>
      unfold validUTF8 at hv
      unfold replaceInvalid
      by_cases h0 : runeSize (b :: rest) = 0
      · simp [h0] at hv
      · rw [if_neg h0] at hv
        rw [if_neg h0, ih _ hv]
    | succ k =>
      unfold validUTF8 at hv
      unfold replaceInvalid
      rw [ih k hv]

/-- The encoder copies a run of the letter A. -/
theorem replaceInvalid_replicate_A (n : Nat) (t : ByteString) :
    replaceInvalid 0 (List.replicate n 65 ++ t) = List.replicate n 65 ++ replaceInvalid 0 t := by
  have step : ∀ r : ByteString, replaceInvalid 0 (65 :: r) = 65 :: replaceInvalid 0 r := by
    intro r
    have hr : runeSize ((65 : UInt8) :: r) = 1 := rfl
    rw [replaceInvalid, hr]
    rfl
  induction n with
  | zero => rfl
  | succ n ih =>
    show replaceInvalid 0 ((65 : UInt8) :: (List.replicate n 65 ++ t)) = _
    rw [step, ih]
    rfl

/-- A run of the letter A is well-formed UTF-8. -/
theorem validUTF8_replicate_A (n : Nat) : validUTF8 0 (List.replicate n 65) = true := by
  have step : ∀ r : ByteString, validUTF8 0 (65 :: r) = validUTF8 0 r := by
    intro r
    have hr : runeSize ((65 : UInt8) :: r) = 1 := rfl
    rw [validUTF8, hr]
    rfl
  induction n with
  | zero => rfl
  | succ n ih =>
    show validUTF8 0 ((65 : UInt8) :: List.replicate n 65) = true
    rw [step, ih]

/-- The accented letters take two bytes each. -/
theorem accented_length (n : Nat) : (accented n).length = 2 * n := by
  induction n with
  | zero => rfl
  | succ n ih =>
    show (195 :: 169 :: accented n).length = 2 * (n + 1)
    simp only [List.length_cons, ih]
    omega

/-- A run of accented letters splits into two runs. -/
theorem accented_add (a b : Nat) : accented (a + b) = accented a ++ accented b := by
  induction a with
  | zero => simp [accented]
  | succ a ih =>
    have h : a + 1 + b = (a + b) + 1 := by omega
    rw [h]
    show 195 :: 169 :: accented (a + b) = (195 :: 169 :: accented a) ++ accented b
    rw [ih]
    rfl

/-- Cutting the letter A and `2 * n + 1` accented letters after `2 * n + 2`
bytes leaves the letter A, `n` accented letters and the first byte of the
next one. -/
theorem take_accented (n : Nat) :
    ((65 : UInt8) :: accented (n + (n + 1))).take (2 * n + 1 + 1) =
      65 :: (accented n ++ [195]) := by
  rw [List.take_succ_cons, accented_add, List.take_append_eq_append_take, accented_length,
    List.take_of_length_le (by rw [accented_length]; omega)]
  have h : 2 * n + 1 - 2 * n = 1 := by omega
  rw [h]
  rfl

/-- The encoder copies a run of accented letters. -/
theorem replaceInvalid_accented (n : Nat) (t : ByteString) :
    replaceInvalid 0 (accented n ++ t) = accented n ++ replaceInvalid 0 t := by
  have step : ∀ r : ByteString,
      replaceInvalid 0 (195 :: 169 :: r) = 195 :: 169 :: replaceInvalid 0 r := by
    intro r
    have hr : runeSize ((195 : UInt8) :: 169 :: r) = 2 := rfl
    rw [replaceInvalid, hr]
    rfl
  induction n with
  | zero => rfl
  | succ n ih =>
    show replaceInvalid 0 ((195 : UInt8) :: 169 :: (accented n ++ t)) = _
    rw [step, ih]
    rfl

/-- The encoded message keeps the start time, and its one activity keeps the
activity type. -/
theorem statuspalMsg_encoded (env : Env) (n : Notifier) (ctx : Context) (as : List Alert) :
    (statuspalMsg env n ctx as).encoded.title =
      replaceInvalid 0 (Truncate (renderFields n ctx as).2.1 20480).1 ∧
    (statuspalMsg env n ctx as).encoded.incident_activities =
      [{ activity_type_id := activityTypeOf (Alerts as)
         description := replaceInvalid 0 (Truncate (renderFields n ctx as).2.2.1 20480).1
         email_notify := n.conf.NotifyEmail
         slack_notify := n.conf.NotifySlack
         tweet := n.conf.NotifyTweet }] := ⟨rfl, rfl⟩

/-- The path of the request URL has a slash in it. -/
theorem slash_mem_requestURL (n : Notifier) : '/' ∈ (requestURL n).data := by
  have hp : '/' ∈ (n.conf.APIURL.Copy.Path ++
      ("status_page/" ++ n.conf.StatuspageDomain ++ "/incidents")).data := by
    simp only [String.data_append, List.mem_append]
    right; right
    decide
  have he : '/' ∈ (URL.EscapedPath { n.conf.APIURL.Copy with
      Path := n.conf.APIURL.Copy.Path ++
        ("status_page/" ++ n.conf.StatuspageDomain ++ "/incidents") }).data := by
    unfold URL.EscapedPath
    split_ifs with hstar
    · exfalso
      have hp2 := hp
      simp only at hstar
      rw [hstar] at hp2
      exact absurd hp2 (by decide)
    · show '/' ∈ (escape _ encoding.encodePath).data
      unfold escape
      exact List.mem_flatMap.mpr ⟨'/', hp, by decide⟩
  unfold requestURL URL.String
  simp only [String.data_append, List.mem_append]
  exact Or.inr he

/-- A text that contains the request URL has a slash in it. -/
theorem slash_mem_of_Contains_requestURL (n : Notifier) (text : String)
    (h : Contains text (requestURL n)) : '/' ∈ text.data :=
  List.IsInfix.subset h (slash_mem_requestURL n)

/-- The text of a redacted POST error. -/
theorem redacted_Error (inner : GoError) :
    (GoError.urlError "Post" redacted inner).Error = "Post \"<redacted>\": " ++ inner.Error := by
  have hq : "Post" ++ " " ++ quote redacted ++ ": " = "Post \"<redacted>\": " := by decide
  show "Post" ++ " " ++ quote redacted ++ ": " ++ inner.Error = _
  rw [hq]

/-- The text of a redacted POST error contains the request URL only if the
text of the wrapped error has a slash in it. -/
theorem redacted_Error_not_Contains (n : Notifier) (inner : GoError)
    (h : '/' ∉ inner.Error.data) :
    ¬ Contains (GoError.urlError "Post" redacted inner).Error (requestURL n) := by
  intro hc
  have hs := slash_mem_of_Contains_requestURL n _ hc
  rw [redacted_Error, String.data_append, List.mem_append] at hs
  rcases hs with hs | hs
  · exact absurd hs (by decide)
  · exact h hs

/-! ## Theorems -/

/-- C1: for every integer status code, the classifier of the notifier that
`New` builds (no extra retry codes) reports retryable exactly on 500..599 and
a nil error exactly on 200..299; so 2xx gives (false, nil), 5xx gives (true,
error) and every other code gives (false, error).  Once a response is
received, `Notify` returns the verdict of the classifier unchanged. -/
theorem New_retrier_Check_classification (c : StatuspalConfig) (t : Template)
    (newClient : Except GoError Client) (n : Notifier) (h : New c t newClient = .ok n)
    (code : Int) :
    ((n.retrier.Check code).1 = true ↔ 500 ≤ code ∧ code ≤ 599) ∧
    ((n.retrier.Check code).2 = none ↔ 200 ≤ code ∧ code ≤ 299) ∧
    (200 ≤ code ∧ code ≤ 299 → n.retrier.Check code = (false, none)) ∧
    (500 ≤ code ∧ code ≤ 599 →
      (n.retrier.Check code).1 = true ∧ (n.retrier.Check code).2 ≠ none) ∧
    (¬ (200 ≤ code ∧ code ≤ 299) → ¬ (500 ≤ code ∧ code ≤ 599) →
      (n.retrier.Check code).1 = false ∧ (n.retrier.Check code).2 ≠ none) ∧
    (∀ (env : Env) (ctx : Context) (as : List Alert) (buf : Msg) (resp : Response),
      createStatuspalPayload env n ctx as = .ok buf →
      env.urlParse (requestURL n) = none →
      n.client.Do ctx (statuspalRequest n ctx as buf) = .ok resp →
      Notify env n ctx as = n.retrier.Check resp.StatusCode) := by
  have hc := Check_no_extra_codes code
  rw [← New_retrier c t newClient n h] at hc
  refine ⟨?_, ?_, ?_, ?_, ?_,
    fun env ctx as buf resp => Notify_response env n ctx as buf resp⟩ <;>
  rw [hc] <;>
  by_cases c2 : 200 ≤ code ∧ code ≤ 299 <;>
  by_cases c5 : 500 ≤ code ∧ code ≤ 599 <;>
  simp [c2, c5] <;>
  omega

/-- Witness of C1: the notifier built from the sample configuration; the
remote end answers 503, the classifier and `Notify` report (true, error). -/
theorem New_retrier_Check_classification_witness :
    New sampleConf sampleTemplate (.ok (answering 503)) = .ok (sampleNotifier 503) ∧
    (((sampleNotifier 503).retrier.Check 503).1 = true ↔
      (500 : Int) ≤ 503 ∧ (503 : Int) ≤ 599) ∧
    Notify sampleEnv (sampleNotifier 503) sampleCtx [sampleAlert false] =
      (true, some (.errorString "unexpected status code 503")) :=
  ⟨rfl, (New_retrier_Check_classification sampleConf sampleTemplate (.ok (answering 503))
    (sampleNotifier 503) rfl 503).1, by decide⟩

/-- C2: a payload built for a non-empty batch carries activity type 4 when
every alert of the batch is resolved and activity type 1 when at least one
alert is firing; no payload carries a value other than 1 or 4. -/
theorem createStatuspalPayload_activity_type (env : Env) (n : Notifier) (ctx : Context)
    (as : List Alert) (msg : Msg) (h : createStatuspalPayload env n ctx as = .ok msg) :
    ∃ act : IncidentActivity, msg.incident_activities = [act] ∧
      (act.activity_type_id = 1 ∨ act.activity_type_id = 4) ∧
      (as ≠ [] → (∀ a ∈ as, a.Resolved = true) → act.activity_type_id = 4) ∧
      (as ≠ [] → (∃ a ∈ as, a.Resolved = false) → act.activity_type_id = 1) := by
  obtain ⟨-, -, rfl⟩ := (createStatuspalPayload_ok_iff env n ctx as msg).mp h
  have e : activityTypeOf (Alerts as) = if (∀ a ∈ as, a.Resolved = true) then 4 else 1 :=
    activityTypeOf_eq as
  refine ⟨_, rfl, ?_, ?_, ?_⟩
  · show activityTypeOf (Alerts as) = 1 ∨ activityTypeOf (Alerts as) = 4
    rw [e]
    split_ifs <;> simp
  · intro _ hall
    show activityTypeOf (Alerts as) = 4
    rw [e, if_pos hall]
  · rintro _ ⟨a, ha, hf⟩
    show activityTypeOf (Alerts as) = 1
    rw [e, if_neg]
    intro hall
    have := hall a ha
    simp [hf] at this

/-- Witness of C2: a batch of one resolved and one firing alert yields a
payload with activity type 1. -/
theorem createStatuspalPayload_activity_type_witness :
    createStatuspalPayload sampleEnv (sampleNotifier 200) sampleCtx
        [sampleAlert true, sampleAlert false] =
      .ok (statuspalMsg sampleEnv (sampleNotifier 200) sampleCtx
        [sampleAlert true, sampleAlert false]).encoded ∧
    ∃ act : IncidentActivity,
      (statuspalMsg sampleEnv (sampleNotifier 200) sampleCtx
        [sampleAlert true, sampleAlert false]).encoded.incident_activities = [act] ∧
      (act.activity_type_id = 1 ∨ act.activity_type_id = 4) ∧
      ([sampleAlert true, sampleAlert false] ≠ [] →
        (∀ a ∈ [sampleAlert true, sampleAlert false], a.Resolved = true) →
        act.activity_type_id = 4) ∧
      ([sampleAlert true, sampleAlert false] ≠ [] →
        (∃ a ∈ [sampleAlert true, sampleAlert false], a.Resolved = false) →
        act.activity_type_id = 1) :=
  ⟨rfl, createStatuspalPayload_activity_type sampleEnv (sampleNotifier 200) sampleCtx
    [sampleAlert true, sampleAlert false] _ rfl⟩

/-- C3, as stated, fails: for the empty batch the payload carries activity
type 4, not 1. -/
theorem createStatuspalPayload_empty_not_trigger :
    ∃ msg : Msg, createStatuspalPayload sampleEnv (sampleNotifier 200) sampleCtx [] = .ok msg ∧
      msg.incident_activities.map (fun act => act.activity_type_id) = [4] ∧
      ¬ (∀ act ∈ msg.incident_activities, act.activity_type_id = 1) :=
  ⟨(statuspalMsg sampleEnv (sampleNotifier 200) sampleCtx []).encoded, rfl, by decide,
    by decide⟩

/-- C3, amended: for the empty batch every alert is (vacuously) resolved, the
aggregate status is Resolved and a payload that is built carries activity
type 4. -/
theorem createStatuspalPayload_empty_resolve (env : Env) (n : Notifier) (ctx : Context)
    (msg : Msg) (h : createStatuspalPayload env n ctx [] = .ok msg) :
    Status (Alerts []) = AlertStatus.AlertResolved ∧
    ∃ act : IncidentActivity, msg.incident_activities = [act] ∧ act.activity_type_id = 4 := by
  obtain ⟨-, -, rfl⟩ := (createStatuspalPayload_ok_iff env n ctx [] msg).mp h
  exact ⟨rfl, _, rfl, rfl⟩

/-- Witness of C3, amended: the sample notifier on the empty batch. -/
theorem createStatuspalPayload_empty_resolve_witness :
    createStatuspalPayload sampleEnv (sampleNotifier 200) sampleCtx [] =
      .ok (statuspalMsg sampleEnv (sampleNotifier 200) sampleCtx []).encoded ∧
    Status (Alerts []) = AlertStatus.AlertResolved ∧
    ∃ act : IncidentActivity,
      (statuspalMsg sampleEnv (sampleNotifier 200) sampleCtx []).encoded.incident_activities =
        [act] ∧
      act.activity_type_id = 4 :=
  ⟨rfl, createStatuspalPayload_empty_resolve sampleEnv (sampleNotifier 200) sampleCtx _ rfl⟩

/-- C4 fails on the code: with an incident message template that does not
render, the rendering stores its error, and `createStatuspalPayload` still
returns a payload (with an empty description) and a nil error. -/
theorem createStatuspalPayload_drops_render_error :
    (renderFields brokenMessageNotifier sampleCtx [sampleAlert false]).2.2.2 =
      some (.errorString "template: unclosed action") ∧
    createStatuspalPayload sampleEnv brokenMessageNotifier sampleCtx [sampleAlert false] =
      .ok { title := [100, 111, 119, 110]
            service_ids := [7]
            type := [109, 97, 106, 111, 114]
            starts_at := { sec := 1500000000, nsec := 5, offset := 0 }
            incident_activities :=
              [{ activity_type_id := 1, description := [], email_notify := true,
                 slack_notify := false, tweet := false }] } :=
  ⟨rfl, rfl⟩

/-- C5 fails on the code: with an API key template that does not render, the
rendering stores its error, the payload is built, the remote end answers 200
and `Notify` returns (false, nil). -/
theorem Notify_drops_api_key_render_error :
    (renderedAPIKey brokenKeyNotifier sampleCtx [sampleAlert false]).2 =
      some (.errorString "template: unclosed action") ∧
    Notify sampleEnv brokenKeyNotifier sampleCtx [sampleAlert false] = (false, none) :=
  ⟨rfl, rfl⟩

/-- C6, as stated, fails: when the transport names the request in its error,
the text of the error that `Notify` returns contains the API key and the
request URL, the URL field alone being redacted. -/
theorem Notify_error_text_leaks_wrapped_error :
    ∃ e : GoError,
      Notify sampleEnv reportingNotifier sampleCtx [sampleAlert false] = (true, some e) ∧
      e = .urlError "Post" "<redacted>" (.errorString
        "round trip to https://x.example/status_page/acme/incidents with authorization secret failed") ∧
      Contains e.Error reportingNotifier.conf.APIKey ∧
      Contains e.Error (requestURL reportingNotifier) :=
  ⟨_, rfl, rfl,
    ⟨"Post \"<redacted>\": round trip to https://x.example/status_page/acme/incidents with authorization ".data,
      " failed".data, rfl⟩,
    ⟨"Post \"<redacted>\": round trip to ".data, " with authorization secret failed".data, rfl⟩⟩

/-- C6, amended: when the request fails at the transport level (a cancelled
context included), `Notify` returns retryable = true and the transport error
with the URL it carried replaced by the redaction marker.  The text of the
returned error is `Post "<redacted>": ` followed by the text of the wrapped
error; it does not contain the request URL when the text of the wrapped error
has no slash in it, as under a cancelled context, where the text is
`Post "<redacted>": context canceled`; and every call of `Notify`, whatever
its API key and request URL, whose request fails with the same wrapped error
returns the same error. -/
theorem Notify_transport_failure_redacted (env : Env) (n : Notifier) (ctx : Context)
    (as : List Alert) (buf : Msg) (e : GoError)
    (hp : createStatuspalPayload env n ctx as = .ok buf)
    (hu : env.urlParse (requestURL n) = none)
    (hd : n.client.Do ctx (statuspalRequest n ctx as buf) = .error e) :
    ∃ inner : GoError,
      e = .urlError "Post" (requestURL n) inner ∧
      Notify env n ctx as = (true, some (.urlError "Post" redacted inner)) ∧
      (GoError.urlError "Post" redacted inner).Error =
        "Post \"<redacted>\": " ++ inner.Error ∧
      ('/' ∉ inner.Error.data →
        ¬ Contains (GoError.urlError "Post" redacted inner).Error (requestURL n)) ∧
      (ctx.canceled = true →
        inner = .canceled ∧
        (GoError.urlError "Post" redacted inner).Error =
          "Post \"<redacted>\": context canceled" ∧
        ¬ Contains (GoError.urlError "Post" redacted inner).Error (requestURL n)) ∧
      (∀ (env' : Env) (n' : Notifier) (ctx' : Context) (as' : List Alert) (buf' : Msg)
          (e' : GoError),
        createStatuspalPayload env' n' ctx' as' = .ok buf' →
        env'.urlParse (requestURL n') = none →
        n'.client.Do ctx' (statuspalRequest n' ctx' as' buf') = .error e' →
        e'.Unwrap = some inner →
        Notify env' n' ctx' as' = Notify env n ctx as) := by
  have key : ∀ (env : Env) (n : Notifier) (ctx : Context) (as : List Alert) (buf : Msg)
      (e : GoError), createStatuspalPayload env n ctx as = .ok buf →
      env.urlParse (requestURL n) = none →
      n.client.Do ctx (statuspalRequest n ctx as buf) = .error e →
      ∃ inner : GoError, e = .urlError "Post" (requestURL n) inner ∧
        Notify env n ctx as = (true, some (.urlError "Post" redacted inner)) ∧
        (ctx.canceled = true → inner = .canceled) := by
    intro env n ctx as buf e hp hu hd
    obtain ⟨inner, he, hc, -⟩ := Client_Do_error n.client ctx _ e hd
    rw [(statuspalRequest_method_url n ctx as buf).1,
      (statuspalRequest_method_url n ctx as buf).2, urlErrorOp_POST] at he
    refine ⟨inner, he, ?_, hc⟩
    rw [Notify_eq]
    simp only [hp, hu, hd, he, RedactURL]
  obtain ⟨inner, he, hN, hc⟩ := key env n ctx as buf e hp hu hd
  refine ⟨inner, he, hN, redacted_Error inner, redacted_Error_not_Contains n inner, ?_, ?_⟩
  · intro hcan
    have hi := hc hcan
    subst hi
    exact ⟨rfl, by decide, redacted_Error_not_Contains n _ (by decide)⟩
  · intro env' n' ctx' as' buf' e' hp' hu' hd' hw
    obtain ⟨inner', he', hN', -⟩ := key env' n' ctx' as' buf' e' hp' hu' hd'
    rw [he'] at hw
    simp only [GoError.Unwrap, Option.some.injEq] at hw
    rw [hN', hN, hw]

/-- Witness of C6, amended: the sample notifier (API key `secret`) under a
cancelled context; the text of its error contains neither the API key nor the
request URL. -/
theorem Notify_transport_failure_redacted_witness :
    (createStatuspalPayload sampleEnv (sampleNotifier 200) canceledCtx [sampleAlert false] =
        .ok (statuspalMsg sampleEnv (sampleNotifier 200) canceledCtx
          [sampleAlert false]).encoded ∧
      sampleEnv.urlParse (requestURL (sampleNotifier 200)) = none ∧
      (sampleNotifier 200).client.Do canceledCtx
        (statuspalRequest (sampleNotifier 200) canceledCtx [sampleAlert false]
          (statuspalMsg sampleEnv (sampleNotifier 200) canceledCtx
            [sampleAlert false]).encoded) =
        .error (.urlError "Post" (requestURL (sampleNotifier 200)) .canceled)) ∧
    Notify sampleEnv (sampleNotifier 200) canceledCtx [sampleAlert false] =
      (true, some (.urlError "Post" redacted .canceled)) ∧
    ¬ Contains (GoError.urlError "Post" redacted .canceled).Error
      (requestURL (sampleNotifier 200)) ∧
    ¬ Contains (GoError.urlError "Post" redacted .canceled).Error "secret" :=
  have h := Notify_transport_failure_redacted sampleEnv (sampleNotifier 200) canceledCtx
    [sampleAlert false]
    (statuspalMsg sampleEnv (sampleNotifier 200) canceledCtx [sampleAlert false]).encoded
    (.urlError "Post" (requestURL (sampleNotifier 200)) .canceled) rfl rfl rfl
  ⟨⟨rfl, rfl, rfl⟩,
    h.elim fun inner hi => by
      have hc := (hi.2.2.2.2.1 rfl).1
      rw [hc] at hi
      exact hi.2.1,
    h.elim fun inner hi => by
      have hc := (hi.2.2.2.2.1 rfl).1
      rw [hc] at hi
      exact (hi.2.2.2.2.1 rfl).2.2,
    by decide⟩

/-- C7, as stated, fails: under a cancelled context the request fails with
`context.Canceled` and `Notify` returns retryable = true. -/
theorem Notify_canceled_is_retryable :
    Notify sampleEnv (sampleNotifier 200) canceledCtx [sampleAlert false] =
      (true, some (.urlError "Post" "<redacted>" .canceled)) ∧
    (Notify sampleEnv (sampleNotifier 200) canceledCtx [sampleAlert false]).1 ≠ false :=
  ⟨rfl, by decide⟩

/-- C7, amended: when the cancellation signal has fired, `Notify` returns
retryable = true and a non-nil error: a failure of the payload build is
returned as (true, its error), and a request that fails because of the
cancellation is returned as (true, the redacted error that wraps
`context.Canceled`). -/
theorem Notify_canceled_retryable (env : Env) (n : Notifier) (ctx : Context)
    (as : List Alert) (h : ctx.canceled = true) :
    (Notify env n ctx as).1 = true ∧ (Notify env n ctx as).2 ≠ none ∧
    (∀ err : GoError, createStatuspalPayload env n ctx as = .error err →
      Notify env n ctx as = (true, some err)) ∧
    (∀ buf : Msg, createStatuspalPayload env n ctx as = .ok buf →
      env.urlParse (requestURL n) = none →
      n.client.Do ctx (statuspalRequest n ctx as buf) =
        .error (.urlError "Post" (requestURL n) .canceled) ∧
      Notify env n ctx as = (true, some (.urlError "Post" redacted .canceled))) := by
  have hdo : ∀ buf : Msg, n.client.Do ctx (statuspalRequest n ctx as buf) =
      .error (.urlError "Post" (requestURL n) .canceled) := by
    intro buf
    unfold Client.Do
    rw [if_pos h, (statuspalRequest_method_url n ctx as buf).1,
      (statuspalRequest_method_url n ctx as buf).2, urlErrorOp_POST]
  rw [Notify_eq]
  cases hp : createStatuspalPayload env n ctx as with
  | error e => simp
  | ok buf =>
    cases hu : env.urlParse (requestURL n) with
    | some e => simp
    | none => simp [hdo, RedactURL]

/-- Witness of C7, amended: the sample notifier under a cancelled context. -/
theorem Notify_canceled_retryable_witness :
    canceledCtx.canceled = true ∧
    (Notify sampleEnv (sampleNotifier 200) canceledCtx [sampleAlert false]).1 = true ∧
    (Notify sampleEnv (sampleNotifier 200) canceledCtx [sampleAlert false]).2 ≠ none :=
  ⟨rfl, (Notify_canceled_retryable sampleEnv (sampleNotifier 200) canceledCtx
      [sampleAlert false] rfl).1,
    (Notify_canceled_retryable sampleEnv (sampleNotifier 200) canceledCtx
      [sampleAlert false] rfl).2.1⟩

/-- C8: for a non-empty batch the start time of the payload is the start time
of the alert at index 0 in UTC, whatever follows index 0 (and the payload is
built when that time has a year the encoder accepts); for the empty batch the
payload is built and its start time is the wall-clock time in UTC.  All of it
given a group key in the context. -/
theorem createStatuspalPayload_starts_at (env : Env) (n : Notifier) (ctx : Context)
    (hk : ctx.groupKey ≠ none) :
    (∀ (a : Alert) (rest rest' : List Alert) (msg msg' : Msg),
      createStatuspalPayload env n ctx (a :: rest) = .ok msg →
      createStatuspalPayload env n ctx (a :: rest') = .ok msg' →
      msg.starts_at = a.StartsAt.UTC ∧ msg'.starts_at = msg.starts_at) ∧
    (∀ (a : Alert) (rest : List Alert), a.StartsAt.UTC.yearInRange = true →
      ∃ msg : Msg, createStatuspalPayload env n ctx (a :: rest) = .ok msg ∧
        msg.starts_at = a.StartsAt.UTC) ∧
    (∃ msg : Msg, createStatuspalPayload env n ctx [] = .ok msg ∧
      msg.starts_at = env.now.UTC) := by
  have hs : ∀ (a : Alert) (rest : List Alert),
      (statuspalMsg env n ctx (a :: rest)).encoded.starts_at = a.StartsAt.UTC := by
    intro a rest
    show (startsAt env (a :: rest)).UTC = a.StartsAt.UTC
    rw [startsAt_cons]
  refine ⟨?_, ?_, ?_⟩
  · intro a rest rest' msg msg' h h'
    obtain ⟨-, -, rfl⟩ := (createStatuspalPayload_ok_iff env n ctx (a :: rest) msg).mp h
    obtain ⟨-, -, rfl⟩ := (createStatuspalPayload_ok_iff env n ctx (a :: rest') msg').mp h'
    exact ⟨hs a rest, by rw [hs a rest, hs a rest']⟩
  · intro a rest hy
    refine ⟨(statuspalMsg env n ctx (a :: rest)).encoded,
      (createStatuspalPayload_ok_iff env n ctx (a :: rest) _).mpr ⟨hk, ?_, rfl⟩, hs a rest⟩
    rw [startsAt_cons]
    exact hy
  · refine ⟨(statuspalMsg env n ctx []).encoded, createStatuspalPayload_empty_ok env n ctx hk,
      ?_⟩
    show (startsAt env []).UTC = env.now.UTC
    rw [startsAt_nil]

/-- Witness of C8: the sample notifier; the alert at index 0 started at second
1500000000 (shown two hours east of UTC), the wall clock shows second
1600000000. -/
theorem createStatuspalPayload_starts_at_witness :
    sampleCtx.groupKey ≠ none ∧
    (∃ msg : Msg,
      createStatuspalPayload sampleEnv (sampleNotifier 200) sampleCtx
        [sampleAlert false, sampleAlert true] = .ok msg ∧
      msg.starts_at = { sec := 1500000000, nsec := 5, offset := 0 }) ∧
    (∃ msg : Msg, createStatuspalPayload sampleEnv (sampleNotifier 200) sampleCtx [] = .ok msg ∧
      msg.starts_at = { sec := 1600000000, nsec := 0, offset := 0 }) :=
  ⟨by decide,
    (createStatuspalPayload_starts_at sampleEnv (sampleNotifier 200) sampleCtx
      (by decide)).2.1 (sampleAlert false) [sampleAlert true] (by decide),
    (createStatuspalPayload_starts_at sampleEnv (sampleNotifier 200) sampleCtx
      (by decide)).2.2⟩

/-- C9, as stated, fails: a rendered title of 40959 bytes (the letter A and
20479 two-byte letters) is cut to 20480 bytes in the middle of a two-byte
letter, the encoder replaces the lone byte by U+FFFD, and the title of the
emitted payload has 20482 bytes. -/
theorem createStatuspalPayload_title_exceeds_ceiling :
    ∃ msg : Msg,
      createStatuspalPayload sampleEnv splitNotifier sampleCtx [sampleAlert false] = .ok msg ∧
      (renderFields splitNotifier sampleCtx [sampleAlert false]).2.1.length = 40959 ∧
      msg.title = 65 :: accented 10239 ++ [239, 191, 189] ∧
      msg.title.length = 20482 ∧
      ¬ msg.title.length ≤ 20480 := by
  have hlen : ((65 : UInt8) :: accented 20479).length = 40959 := by
    rw [List.length_cons, accented_length]
  have htake : ((65 : UInt8) :: accented 20479).take 20480 = 65 :: accented 10239 ++ [195] :=
    take_accented 10239
  have hcut : (Truncate ((65 : UInt8) :: accented 20479) 20480).1 =
      65 :: accented 10239 ++ [195] := by
    rw [((Truncate_spec _ 20480).2.2 (by rw [hlen]; decide)).1]
    exact htake
  have htitle : (statuspalMsg sampleEnv splitNotifier sampleCtx [sampleAlert false]).encoded.title =
      65 :: accented 10239 ++ [239, 191, 189] := by
    have hr : (renderFields splitNotifier sampleCtx [sampleAlert false]).2.1 =
        65 :: accented 20479 := rfl
    have h0 : ∀ r : ByteString, replaceInvalid 0 (65 :: r) = 65 :: replaceInvalid 0 r :=
      fun r => replaceInvalid_replicate_A 1 r
    have h1 : replaceInvalid 0 [195] = [239, 191, 189] := by decide
    rw [(statuspalMsg_encoded sampleEnv splitNotifier sampleCtx [sampleAlert false]).1, hr, hcut]
    show replaceInvalid 0 (65 :: (accented 10239 ++ [195])) = _
    rw [h0, replaceInvalid_accented, h1]
    rfl
  have hl : ((65 : UInt8) :: accented 10239 ++ [239, 191, 189]).length = 20482 := by
    show ((65 : UInt8) :: (accented 10239 ++ [239, 191, 189])).length = 20482
    rw [List.length_cons, List.length_append, accented_length]
    rfl
  refine ⟨(statuspalMsg sampleEnv splitNotifier sampleCtx [sampleAlert false]).encoded,
    (createStatuspalPayload_ok_iff _ _ _ _ _).mpr ⟨by decide, by decide, rfl⟩, hlen, htitle, ?_, ?_⟩
  · rw [htitle, hl]
  · rw [htitle, hl]
    decide

/-- C9, amended: the title and the description that `createStatuspalPayload`
hands to the encoder are at most 20480 bytes long, a rendered title or
incident message longer than 20480 bytes being cut to exactly 20480 bytes (its
first 20480).  In the emitted payload they are these strings with every byte
of invalid UTF-8 replaced by U+FFFD: the strings themselves, at most 20480
bytes, when they are valid UTF-8, and at most 61440 bytes in any case. -/
theorem createStatuspalPayload_truncates_then_encodes (env : Env) (n : Notifier)
    (ctx : Context) (as : List Alert) (msg : Msg)
    (h : createStatuspalPayload env n ctx as = .ok msg) :
    ((Truncate (renderFields n ctx as).2.1 20480).1.length ≤ 20480 ∧
      (20480 < (renderFields n ctx as).2.1.length →
        (Truncate (renderFields n ctx as).2.1 20480).1.length = 20480 ∧
        (Truncate (renderFields n ctx as).2.1 20480).1 =
          (renderFields n ctx as).2.1.take 20480) ∧
      msg.title = replaceInvalid 0 (Truncate (renderFields n ctx as).2.1 20480).1 ∧
      (validUTF8 0 (Truncate (renderFields n ctx as).2.1 20480).1 = true →
        msg.title = (Truncate (renderFields n ctx as).2.1 20480).1 ∧
        msg.title.length ≤ 20480) ∧
      msg.title.length ≤ 61440) ∧
    ∃ act : IncidentActivity, msg.incident_activities = [act] ∧
      (Truncate (renderFields n ctx as).2.2.1 20480).1.length ≤ 20480 ∧
      (20480 < (renderFields n ctx as).2.2.1.length →
        (Truncate (renderFields n ctx as).2.2.1 20480).1.length = 20480 ∧
        (Truncate (renderFields n ctx as).2.2.1 20480).1 =
          (renderFields n ctx as).2.2.1.take 20480) ∧
      act.description = replaceInvalid 0 (Truncate (renderFields n ctx as).2.2.1 20480).1 ∧
      (validUTF8 0 (Truncate (renderFields n ctx as).2.2.1 20480).1 = true →
        act.description = (Truncate (renderFields n ctx as).2.2.1 20480).1 ∧
        act.description.length ≤ 20480) ∧
      act.description.length ≤ 61440 := by
  obtain ⟨-, -, rfl⟩ := (createStatuspalPayload_ok_iff env n ctx as msg).mp h
  have main : ∀ r : ByteString,
      (Truncate r 20480).1.length ≤ 20480 ∧
      (20480 < r.length →
        (Truncate r 20480).1.length = 20480 ∧ (Truncate r 20480).1 = r.take 20480) ∧
      replaceInvalid 0 (Truncate r 20480).1 = replaceInvalid 0 (Truncate r 20480).1 ∧
      (validUTF8 0 (Truncate r 20480).1 = true →
        replaceInvalid 0 (Truncate r 20480).1 = (Truncate r 20480).1 ∧
        (replaceInvalid 0 (Truncate r 20480).1).length ≤ 20480) ∧
      (replaceInvalid 0 (Truncate r 20480).1).length ≤ 61440 := by
    intro r
    have ht := Truncate_spec r 20480
    refine ⟨ht.1, fun hl => ⟨(ht.2.2 hl).2, congrArg Prod.fst (ht.2.2 hl).1⟩, rfl, ?_, ?_⟩
    · intro hv
      rw [replaceInvalid_of_valid _ 0 hv]
      exact ⟨rfl, ht.1⟩
    · have hb := replaceInvalid_length_le (Truncate r 20480).1 0
      have h1 := ht.1
      omega
  exact ⟨main _, _, (statuspalMsg_encoded env n ctx as).2, main _⟩

/-- Witness of C9, amended: every template renders to 20481 letters A; the
title handed to the encoder has exactly 20480 bytes and, being valid UTF-8,
so has the title of the emitted payload. -/
theorem createStatuspalPayload_truncates_then_encodes_witness :
    createStatuspalPayload sampleEnv longNotifier sampleCtx [sampleAlert false] =
      .ok (statuspalMsg sampleEnv longNotifier sampleCtx [sampleAlert false]).encoded ∧
    (renderFields longNotifier sampleCtx [sampleAlert false]).2.1.length = 20481 ∧
    (Truncate (renderFields longNotifier sampleCtx [sampleAlert false]).2.1 20480).1.length =
      20480 ∧
    (statuspalMsg sampleEnv longNotifier sampleCtx [sampleAlert false]).encoded.title.length
      ≤ 20480 :=
  have hp : createStatuspalPayload sampleEnv longNotifier sampleCtx [sampleAlert false] =
      .ok (statuspalMsg sampleEnv longNotifier sampleCtx [sampleAlert false]).encoded :=
    (createStatuspalPayload_ok_iff _ _ _ _ _).mpr ⟨by decide, by decide, rfl⟩
  have hl : (renderFields longNotifier sampleCtx [sampleAlert false]).2.1.length = 20481 :=
    List.length_replicate 20481 65
  have hc := (createStatuspalPayload_truncates_then_encodes sampleEnv longNotifier sampleCtx
    [sampleAlert false] _ hp).1
  have hcut := hc.2.1 (by rw [hl]; decide)
  have hv : validUTF8 0
      (Truncate (renderFields longNotifier sampleCtx [sampleAlert false]).2.1 20480).1 = true := by
    rw [hcut.2]
    show validUTF8 0 ((List.replicate 20481 (65 : UInt8)).take 20480) = true
    rw [List.take_replicate]
    exact validUTF8_replicate_A _
  ⟨hp, hl, hcut.1, (hc.2.2.2.1 hv).2⟩

/-- C10: the truncation step returns a string of at most 20480 bytes unchanged
and reports no truncation, so a rendered title or incident message of at most
20480 bytes reaches the message that `createStatuspalPayload` builds unchanged;
and the step is idempotent: applied again to its own result, or to the title
or description of the message built, it returns that string unchanged.  The
payload returned is that message as encoded, and holds the same title and
description when these are valid UTF-8. -/
theorem Truncate_unchanged_idempotent (s : ByteString) :
    (s.length ≤ 20480 → Truncate s 20480 = (s, false)) ∧
    Truncate (Truncate s 20480).1 20480 = ((Truncate s 20480).1, false) ∧
    (∀ (env : Env) (n : Notifier) (ctx : Context) (as : List Alert),
      ((renderFields n ctx as).2.1.length ≤ 20480 →
        (statuspalMsg env n ctx as).title = (renderFields n ctx as).2.1) ∧
      Truncate (statuspalMsg env n ctx as).title 20480 =
        ((statuspalMsg env n ctx as).title, false) ∧
      ∃ act : IncidentActivity, (statuspalMsg env n ctx as).incident_activities = [act] ∧
        ((renderFields n ctx as).2.2.1.length ≤ 20480 →
          act.description = (renderFields n ctx as).2.2.1) ∧
        Truncate act.description 20480 = (act.description, false)) ∧
    (∀ (env : Env) (n : Notifier) (ctx : Context) (as : List Alert) (msg : Msg),
      createStatuspalPayload env n ctx as = .ok msg →
      Encode (statuspalMsg env n ctx as) = .ok msg ∧
      (validUTF8 0 (statuspalMsg env n ctx as).title = true →
        ((renderFields n ctx as).2.1.length ≤ 20480 →
          msg.title = (renderFields n ctx as).2.1) ∧
        Truncate msg.title 20480 = (msg.title, false)) ∧
      ∃ act : IncidentActivity, msg.incident_activities = [act] ∧
        (validUTF8 0 (Truncate (renderFields n ctx as).2.2.1 20480).1 = true →
          ((renderFields n ctx as).2.2.1.length ≤ 20480 →
            act.description = (renderFields n ctx as).2.2.1) ∧
          Truncate act.description 20480 = (act.description, false))) := by
  have idem : ∀ t : ByteString,
      Truncate (Truncate t 20480).1 20480 = ((Truncate t 20480).1, false) :=
    fun t => (Truncate_spec _ 20480).2.1 (Truncate_spec t 20480).1
  have keep : ∀ t : ByteString, t.length ≤ 20480 → (Truncate t 20480).1 = t :=
    fun t hl => congrArg Prod.fst ((Truncate_spec t 20480).2.1 hl)
  refine ⟨(Truncate_spec s 20480).2.1, idem s, ?_, ?_⟩
  · intro env n ctx as
    exact ⟨keep _, idem _, _, rfl, keep _, idem _⟩
  · intro env n ctx as msg h
    have he : Encode (statuspalMsg env n ctx as) = .ok msg := by
      rw [createStatuspalPayload_eq] at h
      cases hk : ExtractGroupKey ctx with
      | error e => simp [hk] at h
      | ok key => simpa [hk] using h
    obtain ⟨-, -, rfl⟩ := (createStatuspalPayload_ok_iff env n ctx as msg).mp h
    refine ⟨he, ?_, _, (statuspalMsg_encoded env n ctx as).2, ?_⟩
    · intro hv
      have ht : (statuspalMsg env n ctx as).encoded.title =
          (Truncate (renderFields n ctx as).2.1 20480).1 :=
        replaceInvalid_of_valid _ 0 hv
      rw [ht]
      exact ⟨keep _, idem _⟩
    · intro hv
      show (_ → replaceInvalid 0 (Truncate (renderFields n ctx as).2.2.1 20480).1 = _) ∧
        Truncate (replaceInvalid 0 (Truncate (renderFields n ctx as).2.2.1 20480).1) 20480 = _
      rw [replaceInvalid_of_valid _ 0 hv]
      exact ⟨keep _, idem _⟩

/-- Witness of C10: the four bytes of `down`, the rendered sample title. -/
theorem Truncate_unchanged_idempotent_witness :
    ([100, 111, 119, 110] : ByteString).length ≤ 20480 ∧
    Truncate [100, 111, 119, 110] 20480 = ([100, 111, 119, 110], false) :=
  ⟨by decide, (Truncate_unchanged_idempotent [100, 111, 119, 110]).1 (by decide)⟩

end Statuspal
